import Mathlib

/-!
Verification of the URL accessibility checker application (src/app.py).

The program is a small single-file application with four functions:

* `normalize_url`       : trim the input and force an http/https scheme;
* `is_presentations_ai_url` : classify whether the host matches the provider;
* `check_url_accessibility` : one HTTP GET, scan the body for sign-in markers,
  return a structured verdict;
* `generate_ai_instructions` : delegate to an external LLM, with a fixed
  fallback text on any failure.

Python strings are modelled by `String` (a list of characters in this Lean
version), which matches the code-point view Python takes of text.  The
single `requests.get` call is modelled by its outcome, a value of type
`Except String HttpResponse`: a transport exception becomes `Except.error`
carrying `str(e)`, a completed exchange becomes `Except.ok` carrying the
status code, final URL and body text.  The external LLM client is modelled
as a function from the prompt to `Except String String`.
-/

namespace App

/-- The set of code points stripped by the Python `str.strip()` method with
no argument (every character for which `str.isspace()` holds). -/
def pyWhitespace : List Nat :=
  [0x09, 0x0a, 0x0b, 0x0c, 0x0d, 0x1c, 0x1d, 0x1e, 0x1f, 0x20, 0x85, 0xa0,
   0x1680, 0x2000, 0x2001, 0x2002, 0x2003, 0x2004, 0x2005, 0x2006, 0x2007,
   0x2008, 0x2009, 0x200a, 0x2028, 0x2029, 0x202f, 0x205f, 0x3000]

/-- Whether a character is whitespace in the sense of Python `str.strip()`. -/
def pyIsSpace (c : Char) : Bool :=
  pyWhitespace.contains c.toNat

/-- Python `str.strip()`: remove leading and trailing whitespace. -/
def pyStrip (s : String) : String :=
  ⟨(s.data.dropWhile pyIsSpace).rdropWhile pyIsSpace⟩

/-- Python `str.lower()`, modelled per character.  Every character occurring
in the literals the program compares against is ASCII, where the Python
case mapping agrees with `Char.toLower`. -/
def pyLower (s : String) : String :=
  ⟨s.data.map Char.toLower⟩

/-- `normalize_url` from src/app.py, lines 9 to 16: return the empty string
for a falsy (empty) input; otherwise trim, and prepend the string https
colon slash slash unless the lower-cased trimmed input already starts with
one of the two scheme strings (Python `startswith` on a tuple). -/
def normalize_url (url : String) : String :=
  if url = "" then ""
  else
    let u := pyStrip url
    if "http://".data <+: (pyLower u).data ∨ "https://".data <+: (pyLower u).data
    then u
    else "https://" ++ u

/-- The characters allowed in a URL scheme by `urllib.parse`
(letters, digits, plus, minus, dot). -/
def scheme_char (c : Char) : Bool :=
  c.isAlpha || c.isDigit || c = '+' || c = '-' || c = '.'

/-- `urllib.parse.urlsplit` first removes every tab, carriage return and
newline from the URL. -/
def removeTabsAndNewlines (l : List Char) : List Char :=
  l.filter (fun c => c != '\t' && c != '\r' && c != '\n')

/-- The scheme-splitting step of `urllib.parse.urlsplit`: if the URL has a
colon at a positive index, the first character is an ASCII letter, and every
character before the colon is a scheme character, drop everything up to and
including the colon. -/
def splitScheme (l : List Char) : List Char :=
  match l.findIdx? (fun c => c = ':') with
  | some i =>
      if 0 < i ∧ (l.take i).all scheme_char ∧ (l.headD ' ').isAlpha
      then l.drop (i + 1)
      else l
  | none => l

/-- The netloc-extraction phase of `urllib.parse.urlsplit` (which `urlparse`
delegates to), before the final `_checknetloc` call: after removing tab,
carriage-return and newline characters and splitting off the scheme, if the
remainder starts with two slashes the netloc is everything up to the next
slash, question mark or hash (`_splitnetloc`), and `none` models the
Invalid-IPv6-URL `ValueError` raised for a netloc containing one square
bracket but not the other.  If the remainder does not start with two
slashes the netloc is the empty string. -/
def urlsplit_netloc_raw (url : String) : Option (List Char) :=
  let rest := splitScheme (removeTabsAndNewlines url.data)
  if "//".data <+: rest then
    let netloc := (rest.drop 2).takeWhile (fun c => c != '/' && c != '?' && c != '#')
    if ('[' ∈ netloc ∧ ']' ∉ netloc) ∨ (']' ∈ netloc ∧ '[' ∉ netloc) then none
    else some netloc
  else some []

/-- `_checknetloc` from urllib.parse: a netloc that is empty or all-ASCII
passes; otherwise the characters at-sign, colon, hash and question mark are
removed (four sequential `replace` calls, modelled as one filter), the rest
is NFKC-normalized, and the netloc is rejected exactly when normalization
changed the string and the result contains one of slash, question mark,
hash, at-sign or colon.  The Unicode normalization itself
(`unicodedata.normalize` over the full Unicode tables) is not reproduced
here: it is the explicit parameter `nfkc`, and every theorem below about
the classifier is proved for every function in its place, so in particular
for the real normalization. -/
def checknetloc (nfkc : List Char → List Char) (netloc : List Char) : Bool :=
  if netloc.isEmpty || netloc.all (fun c => c.toNat < 128) then true
  else
    let n := netloc.filter (fun c => c != '@' && c != ':' && c != '#' && c != '?')
    let netloc2 := nfkc n
    if n = netloc2 then true
    else !("/?#@:".data.any (fun c => netloc2.contains c))

/-- The netloc returned by `urllib.parse.urlsplit`, with the `ValueError`
paths (mismatched bracket, `_checknetloc` rejection) as `none`.  `urlsplit`
runs `_checknetloc(netloc)` after splitting off fragment and query, which
touch neither the netloc nor any failure path, so the composition of the
two phases is exact. -/
def urlsplit_netloc (nfkc : List Char → List Char) (url : String) : Option String :=
  match urlsplit_netloc_raw url with
  | none => none
  | some netloc => if checknetloc nfkc netloc then some ⟨netloc⟩ else none

/-- `is_presentations_ai_url` from src/app.py, lines 19 to 24: parse the URL
and test whether the netloc contains the provider fragment; the enclosing
`try`/`except` turns any parse failure into `False`.  The `nfkc` parameter
is the Unicode normalization used by `_checknetloc`. -/
def is_presentations_ai_url (nfkc : List Char → List Char) (url : String) : Bool :=
  match urlsplit_netloc nfkc url with
  | none => false
  | some netloc => decide ("presentations.ai".data <:+: netloc.data)

/-- The fragment of the real NFKC mapping used by the concrete witnesses:
the fullwidth colon U+FF1A normalizes to the ASCII colon, every other
character of the witness inputs is NFKC-inert and left unchanged. -/
def nfkcFullwidthColon : List Char → List Char :=
  List.map (fun c => if c = '：' then ':' else c)

/-- A completed HTTP exchange as seen by `check_url_accessibility`: the
response status code, the final post-redirect URL (`resp.url`) and the body
text (`resp.text`). -/
structure HttpResponse where
  status_code : Int
  url : String
  text : String
deriving Repr, DecidableEq

/-- The dict built by `check_url_accessibility` (src/app.py lines 31 to 37):
`ok` a boolean, the other four fields optional, all starting at their
unknown defaults. -/
structure Verdict where
  ok : Bool
  status_code : Option Int
  final_url : Option String
  requires_auth : Option Bool
  error : Option String
deriving Repr, DecidableEq

/-- The initial `info` dict of `check_url_accessibility`. -/
def init_info : Verdict :=
  { ok := false, status_code := none, final_url := none,
    requires_auth := none, error := none }

/-- The fixed marker list of src/app.py line 48. -/
def auth_markers : List String :=
  ["sign in", "log in", "login", "unauthorized", "permission", "request access"]

/-- `check_url_accessibility` from src/app.py, lines 27 to 56, as a function
of the outcome of the single `requests.get` call.  On a completed exchange
the status code and final URL are recorded, the body is lower-cased and
scanned for the markers, and `ok` is set to status 200 and no marker found.
On an exception the error string is recorded and everything else keeps its
default.  (`resp.text or ""` only replaces a `None` body, which the model
represents as the empty string directly.) -/
def check_url_accessibility (result : Except String HttpResponse) : Verdict :=
  match result with
  | Except.ok resp =>
      let text_lower := pyLower resp.text
      let requires_auth := auth_markers.any (fun m => decide (m.data <:+: text_lower.data))
      { init_info with
        status_code := some resp.status_code,
        final_url := some resp.url,
        requires_auth := some requires_auth,
        ok := decide (resp.status_code = 200) && !requires_auth }
  | Except.error e => { init_info with error := some e }

/-- The `status_summary` list built by `generate_ai_instructions`
(src/app.py lines 63 to 71).  The error entry is appended only when the
error string is truthy, that is, non-empty. -/
def status_summary (info : Verdict) : List String :=
  (match info.status_code with
   | some n => ["HTTP status: " ++ toString n]
   | none => []) ++
  (match info.requires_auth with
   | some true => ["Appears to require sign-in"]
   | some false => ["No sign-in required"]
   | none => []) ++
  (match info.error with
   | some e => if e = "" then [] else ["Error: " ++ e]
   | none => [])

/-- The `user_prompt` f-string of src/app.py lines 75 to 92, with `url` and
the joined status text substituted.  The three characters rendered oddly on
line 91 of the source are reproduced by their exact code points. -/
def build_user_prompt (url : String) (info : Verdict) : String :=
  let parts := status_summary info
  let status_text := if parts = [] then "No status available"
                     else String.intercalate "; " parts
  "\nYou are assisting a user who wants a global/public share link for a Presentations.ai deck.\n\nDeck URL:\n"
  ++ url
  ++ "\n\nObserved link status:\n"
  ++ status_text
  ++ "\n\nWrite clear, concise, step-by-step instructions (5-8 steps) to:\n- Make the deck publicly accessible (no login required) using the Presentations.ai UI.\n- Copy the public link.\n- Verify access in an incognito window.\n- Include a brief note about revoking access later if needed.\n\nIf the link already appears publicly accessible, explicitly state that it can be used as-is, then still include quick verification steps.\nAvoid fabricating product features‚Äîuse generic, widely-used ‚ÄúShare‚Äù/‚ÄúAnyone with the link can view‚Äù language.\n"

/-- The literal returned by the `except` branch of `generate_ai_instructions`
(src/app.py lines 105 to 115), after the stringified exception: adjacent
Python string literals concatenate with no separator. -/
def fallback_tail : String :=
  "\n\nFallback steps:\n"
  ++ "- Open the deck in Presentations.ai\n"
  ++ "- Click Share (or similar)\n"
  ++ "- Set visibility to Public or Anyone with the link can view\n"
  ++ "- Copy the link\n"
  ++ "- Test in an incognito/private window\n"
  ++ "- Revoke or restrict access later via the same Share settings"

/-- `generate_ai_instructions` from src/app.py, lines 59 to 115.  The chat
completion call and the extraction of `response.choices[0].message.content`
are abstracted as a function `llm` from the prompt to either the generated
text or the stringified failure; the `except` branch returns the fixed
fallback text with the failure reason embedded. -/
def generate_ai_instructions (llm : String → Except String String)
    (url : String) (info : Verdict) : String :=
  let user_prompt := build_user_prompt url info
  match llm user_prompt with
  | Except.ok content => content
  | Except.error e => "AI instructions unavailable. Reason: " ++ e ++ fallback_tail

/-! ### Helper lemmas about the trimming step -/

theorem dropWhile_pyStrip (s : String) :
    (pyStrip s).data.dropWhile pyIsSpace = (pyStrip s).data := by
  rw [List.dropWhile_eq_self_iff]
  intro hl
  have hpre : (pyStrip s).data <+: s.data.dropWhile pyIsSpace :=
    List.rdropWhile_prefix pyIsSpace (s.data.dropWhile pyIsSpace)
  have hx : (pyStrip s).data ≠ [] := by
    intro h
    rw [h] at hl
    simp at hl
  rw [List.get_mk_zero, hpre.head hx]
  have hlast := List.head_dropWhile_not pyIsSpace s.data (hpre.ne_nil hx)
  simp [hlast]

theorem pyStrip_idem (s : String) : pyStrip (pyStrip s) = pyStrip s := by
  apply String.ext
  show ((pyStrip s).data.dropWhile pyIsSpace).rdropWhile pyIsSpace = (pyStrip s).data
  rw [dropWhile_pyStrip]
  exact List.rdropWhile_idempotent pyIsSpace (s.data.dropWhile pyIsSpace)

theorem pyStrip_getLast_not_space (s : String) (h : (pyStrip s).data ≠ []) :
    pyIsSpace ((pyStrip s).data.getLast h) = false := by
  have h2 := List.rdropWhile_last_not pyIsSpace (s.data.dropWhile pyIsSpace) h
  simpa using h2

/-! ### Helper lemmas about the normalizer -/

theorem normalize_url_eq_strip (s : String) (h1 : s ≠ "")
    (h2 : "http://".data <+: (pyLower (pyStrip s)).data ∨
          "https://".data <+: (pyLower (pyStrip s)).data) :
    normalize_url s = pyStrip s := by
  unfold normalize_url
  rw [if_neg h1]
  exact if_pos h2

theorem normalize_url_eq_append (s : String) (h1 : s ≠ "")
    (h2 : ¬ ("http://".data <+: (pyLower (pyStrip s)).data ∨
             "https://".data <+: (pyLower (pyStrip s)).data)) :
    normalize_url s = "https://" ++ pyStrip s := by
  unfold normalize_url
  rw [if_neg h1]
  exact if_neg h2

theorem https_append_ne_empty (u : String) : ("https://" ++ u : String) ≠ "" := by
  intro he
  have hd : ("https://" ++ u).data = ("" : String).data := by rw [he]
  rw [String.data_append, show ("" : String).data = [] from rfl] at hd
  exact absurd (List.append_eq_nil.mp hd).1 (by decide)

theorem pyStrip_https_append (u : String)
    (hu : ∀ h : u.data ≠ [], pyIsSpace (u.data.getLast h) = false) :
    pyStrip ("https://" ++ u) = "https://" ++ u := by
  apply String.ext
  show (("https://" ++ u).data.dropWhile pyIsSpace).rdropWhile pyIsSpace
      = ("https://" ++ u).data
  have hdrop : ("https://".data ++ u.data).dropWhile pyIsSpace
      = "https://".data ++ u.data := by
    rw [show ("https://" : String).data ++ u.data
          = 'h' :: ("ttps://".data ++ u.data) from rfl]
    exact List.dropWhile_cons_of_neg (by decide)
  have hr : ("https://".data ++ u.data).rdropWhile pyIsSpace
      = "https://".data ++ u.data := by
    rw [List.rdropWhile_eq_self_iff]
    intro hl
    rcases eq_or_ne u.data [] with hnil | hne
    · rw [List.getLast_append_left hl hnil,
          show ∀ h, ("https://" : String).data.getLast h = '/' from fun h => rfl]
      decide
    · rw [List.getLast_append_of_ne_nil hne]
      simp [hu hne]
  rw [String.data_append, hdrop, hr]

theorem lower_https_append (u : String) :
    "https://".data <+: (pyLower ("https://" ++ u)).data := by
  show "https://".data <+: ("https://" ++ u).data.map Char.toLower
  rw [String.data_append, List.map_append,
      show ("https://" : String).data.map Char.toLower = "https://".data by decide]
  exact List.prefix_append _ _

/-! ### Claims about the URL normalizer -/

/-- C3 (counterexample): the input consisting of a single space is
whitespace-only but `normalize_url` maps it to the string https colon slash
slash, not to the empty string: the emptiness test of line 11 runs before
the trim of line 13, so a whitespace-only input is not caught by it. -/
theorem C3_counterexample : normalize_url " " = "https://" ∧ normalize_url " " ≠ "" :=
  ⟨by decide, by decide⟩

/-- C3 (amended): for the empty input `normalize_url` returns the empty
string; a non-empty input consisting only of whitespace characters is
trimmed to nothing and then prefixed, yielding exactly the scheme string. -/
theorem C3_empty_and_whitespace :
    normalize_url "" = "" ∧
    ∀ s : String, s ≠ "" → s.data.all pyIsSpace = true → normalize_url s = "https://" := by
  refine ⟨rfl, ?_⟩
  intro s hne hall
  have hstrip : pyStrip s = "" := by
    apply String.ext
    show (s.data.dropWhile pyIsSpace).rdropWhile pyIsSpace = ("" : String).data
    have hd : s.data.dropWhile pyIsSpace = [] :=
      List.dropWhile_eq_nil_iff.mpr (fun x hx => List.all_eq_true.mp hall x hx)
    rw [hd]
    rfl
  have hcond : ¬ ("http://".data <+: (pyLower (pyStrip s)).data ∨
                  "https://".data <+: (pyLower (pyStrip s)).data) := by
    rw [hstrip]
    decide
  rw [normalize_url_eq_append s hne hcond, hstrip]
  decide

/-- C3 (witness): the single-space input instantiates the amended claim. -/
theorem C3_witness :
    ((" " : String) ≠ "" ∧ (" " : String).data.all pyIsSpace = true) ∧
    normalize_url " " = "https://" := by
  have h := C3_empty_and_whitespace
  exact ⟨⟨by decide, by decide⟩, h.2 " " (by decide) (by decide)⟩

/-- C7: an input that, after trimming, starts with the string http colon
slash slash or https colon slash slash under the lower-casing comparison of
line 14 is returned trimmed, with its scheme untouched. -/
theorem C7_scheme_preserved (s : String)
    (h : "http://".data <+: (pyLower (pyStrip s)).data ∨
         "https://".data <+: (pyLower (pyStrip s)).data) :
    normalize_url s = pyStrip s := by
  have hne : s ≠ "" := by
    intro he
    subst he
    revert h
    decide
  exact normalize_url_eq_strip s hne h

/-- C7 (witness): a mixed-case scheme with surrounding whitespace. -/
theorem C7_witness :
    ("http://".data <+: (pyLower (pyStrip " HTTPS://Example.com ")).data ∨
     "https://".data <+: (pyLower (pyStrip " HTTPS://Example.com ")).data) ∧
    normalize_url " HTTPS://Example.com " = pyStrip " HTTPS://Example.com " :=
  ⟨Or.inr (by decide), C7_scheme_preserved " HTTPS://Example.com " (Or.inr (by decide))⟩

/-- C8: a non-empty input whose trimmed form does not start with either
scheme string gets the https scheme prepended, so the output starts with
the string https colon slash slash. -/
theorem C8_https_prepended (s : String) (h1 : s ≠ "")
    (h2 : ¬ ("http://".data <+: (pyLower (pyStrip s)).data ∨
             "https://".data <+: (pyLower (pyStrip s)).data)) :
    "https://".data <+: (normalize_url s).data := by
  rw [normalize_url_eq_append s h1 h2, String.data_append]
  exact List.prefix_append _ _

/-- C8 (witness): a bare host name gets the https scheme prepended. -/
theorem C8_witness :
    (("example.com" : String) ≠ "" ∧
     ¬ ("http://".data <+: (pyLower (pyStrip "example.com")).data ∨
        "https://".data <+: (pyLower (pyStrip "example.com")).data)) ∧
    "https://".data <+: (normalize_url "example.com").data :=
  ⟨⟨by decide, by decide⟩, C8_https_prepended "example.com" (by decide) (by decide)⟩

/-- C10: `normalize_url` is idempotent.  The empty string maps to itself;
a trimmed input with a scheme is a fixed point; and a prepended output
starts with a non-space character, ends with a non-space character, and
carries the https scheme, so it is a fixed point as well. -/
theorem C10_normalize_url_idempotent (s : String) :
    normalize_url (normalize_url s) = normalize_url s := by
  by_cases h1 : s = ""
  · subst h1
    rfl
  · by_cases h2 : ("http://".data <+: (pyLower (pyStrip s)).data ∨
                   "https://".data <+: (pyLower (pyStrip s)).data)
    · rw [normalize_url_eq_strip s h1 h2]
      have hne : pyStrip s ≠ "" := by
        intro he
        rw [he] at h2
        revert h2
        decide
      have h2' : "http://".data <+: (pyLower (pyStrip (pyStrip s))).data ∨
                 "https://".data <+: (pyLower (pyStrip (pyStrip s))).data := by
        rw [pyStrip_idem]
        exact h2
      rw [normalize_url_eq_strip _ hne h2', pyStrip_idem]
    · rw [normalize_url_eq_append s h1 h2]
      have hstr : pyStrip ("https://" ++ pyStrip s) = "https://" ++ pyStrip s :=
        pyStrip_https_append (pyStrip s) (fun h => pyStrip_getLast_not_space s h)
      have hc : "http://".data <+: (pyLower (pyStrip ("https://" ++ pyStrip s))).data ∨
                "https://".data <+: (pyLower (pyStrip ("https://" ++ pyStrip s))).data := by
        rw [hstr]
        exact Or.inr (lower_https_append (pyStrip s))
      rw [normalize_url_eq_strip _ (https_append_ne_empty (pyStrip s)) hc, hstr]

/-- C10 (witness): idempotence evaluated at a bare host name. -/
theorem C10_witness :
    normalize_url (normalize_url "example.com") = normalize_url "example.com" :=
  C10_normalize_url_idempotent "example.com"

/-! ### Claims about the accessibility checker -/

/-- C1: on every completed exchange, `requires_auth` is true exactly when
the lower-cased body contains one of the six fixed markers; a status-200
body free of markers yields an ok verdict without auth, and a status-200
body containing the phrase please-sign-in (compared after lower-casing, so
in any case) yields a not-ok verdict that requires auth. -/
theorem C1_requires_auth_iff_marker :
    (∀ resp : HttpResponse,
        ((check_url_accessibility (Except.ok resp)).requires_auth = some true ↔
          ∃ m ∈ (["sign in", "log in", "login", "unauthorized", "permission",
                  "request access"] : List String),
            m.data <:+: (pyLower resp.text).data)) ∧
    (∀ resp : HttpResponse, resp.status_code = 200 →
        (∀ m ∈ auth_markers, ¬ m.data <:+: (pyLower resp.text).data) →
        (check_url_accessibility (Except.ok resp)).ok = true ∧
        (check_url_accessibility (Except.ok resp)).requires_auth = some false) ∧
    (∀ resp : HttpResponse, resp.status_code = 200 →
        ("please sign in" : String).data <:+: (pyLower resp.text).data →
        (check_url_accessibility (Except.ok resp)).ok = false ∧
        (check_url_accessibility (Except.ok resp)).requires_auth = some true) := by
  refine ⟨?_, ?_, ?_⟩
  · intro resp
    show some (auth_markers.any _) = some true ↔ _
    simp [auth_markers, List.any_eq_true]
  · intro resp h200 hnone
    have hb : auth_markers.any
        (fun m => decide (m.data <:+: (pyLower resp.text).data)) = false := by
      rw [List.any_eq_false]
      intro m hm
      simpa using hnone m hm
    constructor
    · show (decide (resp.status_code = 200) && !_) = true
      rw [h200, hb]
      decide
    · show some _ = some false
      rw [hb]
  · intro resp h200 hinf
    have hsub : ("sign in" : String).data <:+: ("please sign in" : String).data := by
      decide
    have hb : auth_markers.any
        (fun m => decide (m.data <:+: (pyLower resp.text).data)) = true := by
      rw [List.any_eq_true]
      exact ⟨"sign in", by simp [auth_markers], by simpa using hsub.trans hinf⟩
    constructor
    · show (decide (resp.status_code = 200) && !_) = false
      rw [hb]
      simp
    · show some _ = some true
      rw [hb]

/-- C1 (witness): a marker-free 200 body and a body containing the phrase
in capitals. -/
theorem C1_witness :
    ((check_url_accessibility (Except.ok ⟨200, "https://x", "hello world"⟩)).ok = true ∧
     (check_url_accessibility
        (Except.ok ⟨200, "https://x", "hello world"⟩)).requires_auth = some false) ∧
    ((check_url_accessibility
        (Except.ok ⟨200, "https://x", "Try PLEASE SIGN IN now"⟩)).ok = false ∧
     (check_url_accessibility
        (Except.ok ⟨200, "https://x", "Try PLEASE SIGN IN now"⟩)).requires_auth
        = some true) := by
  obtain ⟨-, h2, h3⟩ := C1_requires_auth_iff_marker
  exact ⟨h2 ⟨200, "https://x", "hello world"⟩ rfl (by decide),
         h3 ⟨200, "https://x", "Try PLEASE SIGN IN now"⟩ rfl (by decide)⟩

/-- C2: every verdict populates exactly one of the error field and the
status-code field, and it is ok exactly when there is no error, the status
is 200 and no marker was found. -/
theorem C2_verdict_invariant (result : Except String HttpResponse) :
    ((check_url_accessibility result).error.isSome
        = !(check_url_accessibility result).status_code.isSome) ∧
    ((check_url_accessibility result).ok = true ↔
      (check_url_accessibility result).error = none ∧
      (check_url_accessibility result).status_code = some 200 ∧
      (check_url_accessibility result).requires_auth = some false) := by
  cases result with
  | ok resp =>
      refine ⟨rfl, ?_⟩
      show (decide (resp.status_code = 200) && !_) = true ↔ _
      simp [check_url_accessibility, init_info]
  | error e =>
      exact ⟨rfl, by simp [check_url_accessibility, init_info]⟩

/-- C4: a transport exception produces a verdict, not an exception: the
error field carries the stringified failure, the status code and the other
fields keep their unknown defaults, and ok is false. -/
theorem C4_transport_error_verdict (e : String) :
    check_url_accessibility (Except.error e) =
      { ok := false, status_code := none, final_url := none,
        requires_auth := none, error := some e } := rfl

/-- C6: a completed exchange with a status other than 200 can never be ok,
whatever the body says, since ok conjoins the status-200 test. -/
theorem C6_non200_not_ok (resp : HttpResponse) (h : resp.status_code ≠ 200) :
    (check_url_accessibility (Except.ok resp)).ok = false := by
  show (decide (resp.status_code = 200) && !_) = false
  rw [decide_eq_false h]
  simp

/-- C6 (witness): a 403 response with a marker-free body is not ok. -/
theorem C6_witness :
    ((403 : Int) ≠ 200) ∧
    (check_url_accessibility (Except.ok ⟨403, "https://x", "all good here"⟩)).ok = false :=
  ⟨by decide, C6_non200_not_ok ⟨403, "https://x", "all good here"⟩ (by decide)⟩

/-! ### Claims about the provider classifier -/

theorem checknetloc_of_ascii (nfkc : List Char → List Char) (netloc : List Char)
    (h : (netloc.isEmpty || netloc.all (fun c => c.toNat < 128)) = true) :
    checknetloc nfkc netloc = true := by
  unfold checknetloc
  rw [if_pos h]

/-- C9: for every Unicode normalization in the place of the NFKC tables,
the classifier answers true exactly when the netloc extracted by urlsplit
contains the provider fragment, every parse failure (mismatched bracket or
NFKC rejection) yields false, and the concrete scenario from the spec: the
bare provider URL normalizes to its https form, whose all-ASCII netloc
passes `_checknetloc` independently of the normalization, and on which the
classifier answers true. -/
theorem C9_classifier_netloc :
    (∀ (nfkc : List Char → List Char) (url : String),
        urlsplit_netloc nfkc url = none → is_presentations_ai_url nfkc url = false) ∧
    (∀ (nfkc : List Char → List Char) (url netloc : String),
        urlsplit_netloc nfkc url = some netloc →
        (is_presentations_ai_url nfkc url = true ↔
          ("presentations.ai" : String).data <:+: netloc.data)) ∧
    normalize_url "app.presentations.ai/view/abc"
        = "https://app.presentations.ai/view/abc" ∧
    (∀ nfkc : List Char → List Char,
        is_presentations_ai_url nfkc "https://app.presentations.ai/view/abc" = true) := by
  refine ⟨?_, ?_, by decide, ?_⟩
  · intro nfkc url h
    simp [is_presentations_ai_url, h]
  · intro nfkc url netloc h
    simp [is_presentations_ai_url, h]
  · intro nfkc
    have hraw : urlsplit_netloc_raw "https://app.presentations.ai/view/abc"
        = some ("app.presentations.ai" : String).data := by decide
    have hck : checknetloc nfkc ("app.presentations.ai" : String).data = true :=
      checknetloc_of_ascii nfkc _ (by decide)
    have hn : urlsplit_netloc nfkc "https://app.presentations.ai/view/abc"
        = some "app.presentations.ai" := by
      unfold urlsplit_netloc
      rw [hraw]
      simp [hck]
    show (match urlsplit_netloc nfkc "https://app.presentations.ai/view/abc" with
          | none => false
          | some netloc => decide (("presentations.ai" : String).data <:+: netloc.data))
        = true
    rw [hn]
    decide

/-- C9 (witness): under the witness normalization, a netloc with a
fullwidth colon is rejected by `_checknetloc` and classifies as false even
though it contains the provider fragment; a mismatched bracket is a parse
failure and classifies as false; the scenario URL has the provider netloc
and classifies as true. -/
theorem C9_witness :
    (urlsplit_netloc nfkcFullwidthColon "https://presentations.ai：" = none ∧
     is_presentations_ai_url nfkcFullwidthColon "https://presentations.ai：" = false) ∧
    (urlsplit_netloc nfkcFullwidthColon "http://[x" = none ∧
     is_presentations_ai_url nfkcFullwidthColon "http://[x" = false) ∧
    (urlsplit_netloc nfkcFullwidthColon "https://app.presentations.ai/view/abc"
        = some "app.presentations.ai" ∧
     (is_presentations_ai_url nfkcFullwidthColon
          "https://app.presentations.ai/view/abc" = true ↔
       ("presentations.ai" : String).data <:+: ("app.presentations.ai" : String).data)) := by
  obtain ⟨h1, h2, -, -⟩ := C9_classifier_netloc
  exact ⟨⟨by decide, h1 nfkcFullwidthColon "https://presentations.ai：" (by decide)⟩,
         ⟨by decide, h1 nfkcFullwidthColon "http://[x" (by decide)⟩,
         ⟨by decide, h2 nfkcFullwidthColon "https://app.presentations.ai/view/abc"
            "app.presentations.ai" (by decide)⟩⟩

/-! ### Claims about the guidance synthesizer -/

/-- C5: whenever the external call fails, whatever the reason, the function
returns the fixed fallback text with the stringified reason embedded, and
never propagates the failure (the model is a total function). -/
theorem C5_fallback_on_failure (llm : String → Except String String)
    (url : String) (info : Verdict) (e : String)
    (h : llm (build_user_prompt url info) = Except.error e) :
    generate_ai_instructions llm url info =
      "AI instructions unavailable. Reason: " ++ e ++ fallback_tail := by
  show (match llm (build_user_prompt url info) with
        | Except.ok content => content
        | Except.error e => "AI instructions unavailable. Reason: " ++ e ++ fallback_tail)
      = "AI instructions unavailable. Reason: " ++ e ++ fallback_tail
  rw [h]

/-- C5 (witness): a client that always fails produces exactly the fallback
text for its reason. -/
theorem C5_witness :
    (fun _ : String => (Except.error "boom" : Except String String))
        (build_user_prompt "u" init_info) = Except.error "boom" ∧
    generate_ai_instructions (fun _ => Except.error "boom") "u" init_info =
      "AI instructions unavailable. Reason: " ++ "boom" ++ fallback_tail :=
  ⟨rfl, C5_fallback_on_failure (fun _ => Except.error "boom") "u" init_info "boom" rfl⟩

end App
